import Mathlib

/-!
Shallow embedding of `src/datapunt_api/serializers.py` (drf_amsterdam).

The repository is a small set of Django REST Framework serializer mixins and
field classes.  Each Python method is translated into a Lean function; the
external collaborators (Django's `reverse` URL resolution, DRF's `get_url`,
`json.loads` GeoJSON decoding, the model's `__str__`) are passed in as
function parameters, since the repository itself delegates to them.  Fallible
collaborators return `Except Err`, matching Python exceptions propagating to
the caller.  Python dicts become ordered association lists, with dict item
assignment modelled by `dictSetItem` (replace in place if the key exists,
append otherwise, preserving insertion order).
-/

/-- Errors raised by the program or its external collaborators.
`resolutionError` models Django's `NoReverseMatch` (the spec's
`ResolutionError`), `decodeError` models `json.JSONDecodeError` (the spec's
`DecodeError`), `indexError` models Python's `IndexError` from `list(...)[0]`
on an empty list, and `malformedFilterError` is the spec's proposed
`MalformedFilterError` (it does not occur anywhere in the source). -/
inductive Err where
  | resolutionError : String → Err
  | decodeError : String → Err
  | indexError : Err
  | malformedFilterError : Err
  deriving Repr, DecidableEq

/-- JSON-compatible values: the contents of a `RenderedObject`. -/
inductive JsonVal where
  | str : String → JsonVal
  | num : Int → JsonVal
  | bool : Bool → JsonVal
  | null : JsonVal
  | obj : List (String × JsonVal) → JsonVal
  | arr : List JsonVal → JsonVal

/-- A Python dict as an ordered association list (insertion order kept). -/
abbrev Dict := List (String × JsonVal)

/-- Python `d[k] = v` on a dict: replace the value in place when the key is
already present (dict keys are unique, so the first occurrence is the
occurrence), append `(k, v)` at the end otherwise.  Insertion order is
preserved, matching Python dict semantics. -/
def dictSetItem : Dict → String → JsonVal → Dict
  | [], k, v => [(k, v)]
  | (k1, v1) :: rest, k, v =>
      if k1 = k then (k, v) :: rest else (k1, v1) :: dictSetItem rest k v

/-- Python `d.get(k)` / `d[k]`: first value bound to `k`, if any. -/
def dictGet : Dict → String → Option JsonVal
  | [], _ => none
  | (k, v) :: rest, key => if k = key then some v else dictGet rest key

/-- Does a decoded JSON value (when it is an object) contain key `k`? -/
def JsonVal.hasKey : JsonVal → String → Bool
  | .obj kvs, k => (kvs.map Prod.fst).contains k
  | _, _ => false

/-- An HTTP request, opaque to the program (only threaded through to the
URL-resolution collaborator). -/
structure HttpRequest where
  info : String
  deriving Repr, DecidableEq

/-- A geometry attribute value (`obj.geometrie` when not `None`): its Python
truthiness and its `.geojson` text property. -/
structure Geometry where
  truthy : Bool
  geojson : String
  deriving Repr, DecidableEq

/-- A primary-key value; `format` is Python's `str()` of it, as used by
`"{}?{}={}".format(...)`. -/
inductive PKey where
  | int : Int → PKey
  | str : String → PKey
  deriving Repr, DecidableEq

def PKey.format : PKey → String
  | .int n => toString n
  | .str s => s

/-- A model instance being serialized: only the attributes the program reads.
`geometrie` is the optional geometry attribute (`None` becomes `none`);
`str_repr` is the result of the model's `__str__`. -/
structure Record where
  geometrie : Option Geometry
  str_repr : String
  deriving Repr, DecidableEq

/-- `get_links(view_name, kwargs=None, request=None)`: builds
`OrderedDict([('self', dict(href=reverse(view_name, kwargs=kwargs,
request=request)))])`.  `reverse` is Django's URL resolver, passed in as a
parameter; its failure (`NoReverseMatch`) propagates. -/
def get_links
    (reverse : String → Option Dict → Option HttpRequest → Except Err String)
    (view_name : String)
    (kwargs : Option Dict)
    (request : Option HttpRequest) :
    Except Err (List (String × List (String × String))) := do
  let url ← reverse view_name kwargs request
  pure [("self", [("href", url)])]

/-- `DataSetSerializerMixin.to_representation(self, obj)` at value level:
`result = super().to_representation(obj); result['dataset'] = self.dataset;
return result`.  `superResult` is the dict produced by the base class. -/
def DataSetSerializerMixin.to_representation (superResult : Dict) (dataset : String) : Dict :=
  dictSetItem superResult "dataset" (JsonVal.str dataset)

/-- A heap address for tracking Python object identity. -/
abbrev Addr := Nat

/-- `DataSetSerializerMixin.to_representation` at heap level, making object
identity explicit: `resultAddr` is the address of the dict returned by
`super().to_representation(obj)`; the item assignment
`result['dataset'] = self.dataset` updates that same heap cell, and the
method returns the same address (the same object, not a copy). -/
def DataSetSerializerMixin.to_representation_heap
    (dataset : String) (heap : Addr → Dict) (resultAddr : Addr) :
    Addr × (Addr → Dict) :=
  (resultAddr,
   fun a =>
     if a = resultAddr then
       dictSetItem (heap resultAddr) "dataset" (JsonVal.str dataset)
     else heap a)

/-- `LinksField`: the instance state read by `to_representation`
(`self.view_name` and `self.context.get('request')`). -/
structure LinksField where
  view_name : String
  context_request : Option HttpRequest

/-- `LinksField.to_representation(self, value)`: builds
`OrderedDict([('self', dict(href=self.get_url(value, self.view_name,
request, None)))])`.  `get_url` is DRF's URL builder, passed in as a
parameter; its failure propagates. -/
def LinksField.to_representation
    (get_url : Record → String → Option HttpRequest → Option String → Except Err String)
    (f : LinksField) (value : Record) :
    Except Err (List (String × List (String × String))) := do
  let request := f.context_request
  let url ← get_url value f.view_name request none
  pure [("self", [("href", url)])]

/-- A related-collection manager (`value` in
`RelatedSummaryField.to_representation`): `count()`, the related model's
`__name__`, the owning instance's `pk`, and the keys of `core_filters`. -/
structure RelatedHandle where
  count : Int
  model_name : String
  instance_pk : PKey
  core_filters_keys : List String

/-- `RelatedSummaryField.to_representation(self, value)`:
`count = value.count(); mapping = value.model.__name__.lower() + "-list";
url = reverse(mapping, request=self.context['request']);
parent_pk = value.instance.pk;
filter_name = list(value.core_filters.keys())[0];
return dict(count=count, href="{}?{}={}".format(url, filter_name,
parent_pk))`.  Taking element `[0]` of an empty key list raises `IndexError`;
`reverse` failures propagate (and occur before the key extraction). -/
def RelatedSummaryField.to_representation
    (reverse : String → HttpRequest → Except Err String)
    (request : HttpRequest) (value : RelatedHandle) :
    Except Err Dict := do
  let count := value.count
  let mapping := value.model_name.toLower ++ "-list"
  let url ← reverse mapping request
  let parent_pk := value.instance_pk
  let filter_name ← match value.core_filters_keys with
    | [] => Except.error Err.indexError
    | k :: _ => Except.ok k
  pure [("count", JsonVal.num count),
        ("href", JsonVal.str (url ++ "?" ++ filter_name ++ "=" ++ parent_pk.format))]

/-- `DisplayField.__init__(self, *args, **kwargs)`: the kwargs dict as passed
on to `super().__init__` after `kwargs['source'] = '*'` and
`kwargs['read_only'] = True`. -/
def DisplayField.init_kwargs (kwargs : Dict) : Dict :=
  dictSetItem (dictSetItem kwargs "source" (JsonVal.str "*")) "read_only" (JsonVal.bool true)

/-- `DisplayField.to_representation(self, value)`: `return str(value)` —
the model's `__str__`. -/
def DisplayField.to_representation (value : Record) : String :=
  value.str_repr

/-- `MultipleGeometryField.get_attribute(self, obj)`: `return obj.geometrie`. -/
def MultipleGeometryField.get_attribute (obj : Record) : Option Geometry :=
  obj.geometrie

/-- Python truthiness of the attribute value tested by `if value:`:
`None` is falsy, a geometry object has its own truthiness. -/
def pyTruthy : Option Geometry → Bool
  | none => false
  | some g => g.truthy

/-- `MultipleGeometryField.to_representation(self, value)`:
`res = ''; if value: res = json.loads(value.geojson); return res`.
`json_loads` is the JSON decoder collaborator; its failure propagates. -/
def MultipleGeometryField.to_representation
    (json_loads : String → Except Err JsonVal)
    (value : Option Geometry) : Except Err JsonVal :=
  match value with
  | some g => if g.truthy then json_loads g.geojson else Except.ok (JsonVal.str "")
  | none => Except.ok (JsonVal.str "")

/-- The whole Rule E pipeline on a record: `get_attribute` then
`to_representation`. -/
def MultipleGeometryField.represent
    (json_loads : String → Except Err JsonVal) (obj : Record) : Except Err JsonVal :=
  MultipleGeometryField.to_representation json_loads (MultipleGeometryField.get_attribute obj)

/-- State-transformer reading of `DisplayField.to_representation`: the record
is threaded as explicit state; the method only reads `str(value)` and performs
no attribute writes, so the outgoing state is whatever the reads left — which
is the incoming record. -/
def DisplayField.to_representation_st (s : Record) : String × Record :=
  let value := s.str_repr
  (value, s)

/-- State-transformer reading of `MultipleGeometryField` (Rule E): reads
`obj.geometrie`, performs no attribute writes. -/
def MultipleGeometryField.represent_st
    (json_loads : String → Except Err JsonVal) (s : Record) :
    Except Err JsonVal × Record :=
  let value := s.geometrie
  (MultipleGeometryField.to_representation json_loads value, s)

/-- State-transformer reading of `DataSetSerializerMixin.to_representation`
(Rule B): the record `obj` is threaded as state; `superRepr` is the base
class's rendering, a pure function of the record; the method writes only into
the rendered dict, never into the record. -/
def DataSetSerializerMixin.to_representation_st
    (superRepr : Record → Dict) (dataset : String) (s : Record) : Dict × Record :=
  let result := superRepr s
  (dictSetItem result "dataset" (JsonVal.str dataset), s)

/-! ### Association-list (Python dict) lemmas -/

theorem dictGet_dictSetItem_self (d : Dict) (k : String) (v : JsonVal) :
    dictGet (dictSetItem d k v) k = some v := by
  induction d with
  | nil => simp [dictSetItem, dictGet]
  | cons kv rest ih =>
    obtain ⟨k1, v1⟩ := kv
    by_cases h : k1 = k
    · simp [dictSetItem, h, dictGet]
    · simp [dictSetItem, h, dictGet, ih]

theorem dictGet_dictSetItem_ne (d : Dict) (k k' : String) (v : JsonVal) (h : k' ≠ k) :
    dictGet (dictSetItem d k' v) k = dictGet d k := by
  induction d with
  | nil => simp [dictSetItem, dictGet, h]
  | cons kv rest ih =>
    obtain ⟨k1, v1⟩ := kv
    by_cases h1 : k1 = k'
    · subst h1
      simp [dictSetItem, dictGet, h]
    · simp [dictSetItem, h1, dictGet, ih]

theorem dictSetItem_of_not_mem (d : Dict) (k : String) (v : JsonVal)
    (h : ¬ k ∈ d.map Prod.fst) :
    dictSetItem d k v = d ++ [(k, v)] := by
  induction d with
  | nil => simp [dictSetItem]
  | cons kv rest ih =>
    obtain ⟨k1, v1⟩ := kv
    simp only [List.map_cons, List.mem_cons, not_or] at h
    obtain ⟨h1, h2⟩ := h
    simp [dictSetItem, Ne.symm h1, ih h2]

theorem dictSetItem_dictSetItem (d : Dict) (k : String) (v1 v2 : JsonVal) :
    dictSetItem (dictSetItem d k v1) k v2 = dictSetItem d k v2 := by
  induction d with
  | nil => simp [dictSetItem]
  | cons kv rest ih =>
    obtain ⟨k1, w⟩ := kv
    by_cases h : k1 = k
    · simp [dictSetItem, h]
    · simp [dictSetItem, h, ih]

theorem except_ok_bind {ε α β : Type} (a : α) (f : α → Except ε β) :
    (Except.ok a >>= f) = f a := rfl

theorem except_error_bind {ε α β : Type} (e : ε) (f : α → Except ε β) :
    ((Except.error e : Except ε α) >>= f) = Except.error e := rfl

/-! ### Claim theorems -/

/-- Claim C2: whenever the external resolver succeeds with URL `u`, both
`get_links` and `LinksField.to_representation` return exactly the mapping
`{"self": {"href": u}}` — one key at the outer level, one key at the inner
level, no extras. -/
theorem C2_self_link_envelope :
    (∀ (reverse : String → Option Dict → Option HttpRequest → Except Err String)
       (view_name : String) (kwargs : Option Dict) (request : Option HttpRequest) (u : String),
        reverse view_name kwargs request = Except.ok u →
        get_links reverse view_name kwargs request = Except.ok [("self", [("href", u)])])
    ∧ (∀ (get_url : Record → String → Option HttpRequest → Option String → Except Err String)
         (f : LinksField) (value : Record) (u : String),
        get_url value f.view_name f.context_request none = Except.ok u →
        LinksField.to_representation get_url f value = Except.ok [("self", [("href", u)])]) := by
  constructor
  · intro reverse view_name kwargs request u h
    simp [get_links, h]
  · intro get_url f value u h
    simp [LinksField.to_representation, h]

/-- Witness for C2 at a concrete resolver and a concrete field. -/
theorem C2_self_link_envelope_witness :
    get_links (fun _ _ _ => Except.ok "https://api.example.org/thing/1/") "thing-detail" none none
      = Except.ok [("self", [("href", "https://api.example.org/thing/1/")])]
    ∧ LinksField.to_representation
        (fun _ _ _ _ => Except.ok "https://api.example.org/thing/1/")
        ⟨"thing-detail", none⟩ ⟨none, "Thing 1"⟩
      = Except.ok [("self", [("href", "https://api.example.org/thing/1/")])] :=
  ⟨C2_self_link_envelope.1 _ "thing-detail" none none _ rfl,
   C2_self_link_envelope.2 _ ⟨"thing-detail", none⟩ ⟨none, "Thing 1"⟩ _ rfl⟩

/-- Counterexample for C3 as stated: Rule B mutates the rendered input object
in place.  With the dict holding only key `"x"` stored at address 0, the
method returns address 0 itself (the same object, not a merged copy), and the
object at that address — which had no `"dataset"` key before the call — holds
`"dataset" = "bag"` after it: the input object was mutated. -/
theorem C3_counterexample :
    (DataSetSerializerMixin.to_representation_heap "bag" (fun _ => [("x", JsonVal.num 1)]) 0).1 = 0
    ∧ dictGet [("x", JsonVal.num 1)] "dataset" = none
    ∧ dictGet ((DataSetSerializerMixin.to_representation_heap "bag"
          (fun _ => [("x", JsonVal.num 1)]) 0).2 0) "dataset" = some (JsonVal.str "bag") :=
  ⟨rfl, rfl, rfl⟩

/-- Claim C3 (amended): at value level Rule B's output equals the input
rendered object plus exactly one appended key `"dataset"` (when that key is
absent), and applying Rule B twice gives last-write-wins; but at heap level
Rule B assigns into the very dict returned by the base class and returns that
same object — an in-place mutation, not a merged copy. -/
theorem C3_dataset_tag_injection :
    (∀ (r : Dict) (d : String), ¬ "dataset" ∈ r.map Prod.fst →
        DataSetSerializerMixin.to_representation r d = r ++ [("dataset", JsonVal.str d)])
    ∧ (∀ (r : Dict) (d1 d2 : String),
        DataSetSerializerMixin.to_representation (DataSetSerializerMixin.to_representation r d1) d2
          = DataSetSerializerMixin.to_representation r d2)
    ∧ (∀ (heap : Addr → Dict) (a : Addr) (d : String),
        (DataSetSerializerMixin.to_representation_heap d heap a).1 = a
        ∧ (DataSetSerializerMixin.to_representation_heap d heap a).2 a
            = DataSetSerializerMixin.to_representation (heap a) d
        ∧ ∀ x : Addr, x ≠ a →
            (DataSetSerializerMixin.to_representation_heap d heap a).2 x = heap x) := by
  refine ⟨?_, ?_, ?_⟩
  · intro r d h
    exact dictSetItem_of_not_mem r "dataset" (JsonVal.str d) h
  · intro r d1 d2
    exact dictSetItem_dictSetItem r "dataset" (JsonVal.str d1) (JsonVal.str d2)
  · intro heap a d
    refine ⟨rfl, by simp [DataSetSerializerMixin.to_representation_heap,
                          DataSetSerializerMixin.to_representation], ?_⟩
    intro x hx
    simp [DataSetSerializerMixin.to_representation_heap, hx]

/-- Witness for C3's amended theorem at a concrete rendered object and heap. -/
theorem C3_dataset_tag_injection_witness :
    DataSetSerializerMixin.to_representation [("x", JsonVal.num 1)] "bag"
      = [("x", JsonVal.num 1), ("dataset", JsonVal.str "bag")]
    ∧ (DataSetSerializerMixin.to_representation_heap "bag" (fun _ => [("x", JsonVal.num 2)]) 1).2 0
        = [("x", JsonVal.num 2)] :=
  ⟨C3_dataset_tag_injection.1 [("x", JsonVal.num 1)] "bag" (by simp),
   (C3_dataset_tag_injection.2.2 (fun _ => [("x", JsonVal.num 2)]) 1 "bag").2.2 0 (by simp)⟩

/-- Counterexample for C1 as stated: on a handle whose filter mapping has
zero keys (and a resolver that succeeds), `RelatedSummaryField.to_representation`
fails with `IndexError` — which is not `MalformedFilterError` — contradicting
the claimed error class. -/
theorem C1_counterexample :
    RelatedSummaryField.to_representation
        (fun _ _ => Except.ok "https://api.example.org/widget/")
        ⟨"req"⟩ ⟨0, "Widget", PKey.int 1, []⟩
      = Except.error Err.indexError
    ∧ (Err.indexError == Err.malformedFilterError) = false :=
  ⟨rfl, rfl⟩

/-- Claim C1 (amended): on every handle whose reverse foreign-key filter
mapping has zero keys, and whose list URL resolves, Rule C fails with Python's
`IndexError` (from `list(value.core_filters.keys())[0]` on an empty list), not
with `MalformedFilterError` and not by silently defaulting to some key. -/
theorem C1_zero_keys_index_error
    (reverse : String → HttpRequest → Except Err String)
    (request : HttpRequest) (value : RelatedHandle)
    (hkeys : value.core_filters_keys = [])
    (hres : ∃ u, reverse (value.model_name.toLower ++ "-list") request = Except.ok u) :
    RelatedSummaryField.to_representation reverse request value = Except.error Err.indexError := by
  obtain ⟨u, hu⟩ := hres
  simp [RelatedSummaryField.to_representation, hu, hkeys, except_ok_bind]

/-- Witness for C1's amended theorem at a concrete zero-key handle. -/
theorem C1_zero_keys_index_error_witness :
    RelatedSummaryField.to_representation
        (fun _ _ => Except.ok "https://api.example.org/thing/")
        ⟨"req"⟩ ⟨3, "Thing", PKey.int 7, []⟩
      = Except.error Err.indexError :=
  C1_zero_keys_index_error _ ⟨"req"⟩ ⟨3, "Thing", PKey.int 7, []⟩ rfl
    ⟨"https://api.example.org/thing/", rfl⟩

/-- Claim C4: on every handle with exactly one filter key `k`, when the list
route `lowercase(model name) + "-list"` resolves to `u`, Rule C returns
`{"count": count, "href": u + "?" + k + "=" + str(pk)}`; with key
`"parent_id"` and pk 42 the href is `u` followed by `"?parent_id=42"`, and a
handle with count 0 yields count 0 as an ordinary result. -/
theorem C4_related_summary
    (reverse : String → HttpRequest → Except Err String)
    (request : HttpRequest) (value : RelatedHandle) (k u : String)
    (hkeys : value.core_filters_keys = [k])
    (hu : reverse (value.model_name.toLower ++ "-list") request = Except.ok u) :
    RelatedSummaryField.to_representation reverse request value
      = Except.ok [("count", JsonVal.num value.count),
                   ("href", JsonVal.str (u ++ "?" ++ k ++ "=" ++ value.instance_pk.format))]
    ∧ (k = "parent_id" → value.instance_pk = PKey.int 42 →
        u ++ "?" ++ k ++ "=" ++ value.instance_pk.format = u ++ "?parent_id=42")
    ∧ (value.count = 0 →
        RelatedSummaryField.to_representation reverse request value
          = Except.ok [("count", JsonVal.num 0),
                       ("href", JsonVal.str (u ++ "?" ++ k ++ "=" ++ value.instance_pk.format))]) := by
  have h1 : RelatedSummaryField.to_representation reverse request value
      = Except.ok [("count", JsonVal.num value.count),
                   ("href", JsonVal.str (u ++ "?" ++ k ++ "=" ++ value.instance_pk.format))] := by
    simp [RelatedSummaryField.to_representation, hu, hkeys, except_ok_bind]
  refine ⟨h1, ?_, ?_⟩
  · intro hk hpk
    subst hk
    rw [hpk]
    have h42 : PKey.format (PKey.int 42) = "42" := rfl
    rw [h42]
    simp [String.append_assoc]
  · intro hc
    rw [h1, hc]

/-- Witness for C4 at a concrete one-key handle with count 0, key
`"parent_id"` and primary key 42. -/
theorem C4_related_summary_witness :
    RelatedSummaryField.to_representation
        (fun _ _ => Except.ok "https://api.example.org/widget/")
        ⟨"req"⟩ ⟨0, "Widget", PKey.int 42, ["parent_id"]⟩
      = Except.ok [("count", JsonVal.num 0),
                   ("href", JsonVal.str ("https://api.example.org/widget/" ++ "?" ++ "parent_id"
                              ++ "=" ++ PKey.format (PKey.int 42)))] :=
  (C4_related_summary _ ⟨"req"⟩ ⟨0, "Widget", PKey.int 42, ["parent_id"]⟩
    "parent_id" _ rfl rfl).1

/-- Claim C5: Rule E returns the empty string when the record's geometry
attribute is absent, and returns the decoded GeoJSON structure (a mapping
with at least the keys `"type"` and `"coordinates"`, as a valid geometry
decodes to) when the geometry is present and valid. -/
theorem C5_geometry_passthrough :
    (∀ (json_loads : String → Except Err JsonVal) (obj : Record),
        obj.geometrie = none →
        MultipleGeometryField.represent json_loads obj = Except.ok (JsonVal.str ""))
    ∧ (∀ (json_loads : String → Except Err JsonVal) (obj : Record) (g : Geometry) (j : JsonVal),
        obj.geometrie = some g → g.truthy = true →
        json_loads g.geojson = Except.ok j →
        JsonVal.hasKey j "type" = true → JsonVal.hasKey j "coordinates" = true →
        MultipleGeometryField.represent json_loads obj = Except.ok j) := by
  constructor
  · intro jl obj h
    simp [MultipleGeometryField.represent, MultipleGeometryField.get_attribute, h,
          MultipleGeometryField.to_representation]
  · intro jl obj g j hg ht hj _ _
    simp [MultipleGeometryField.represent, MultipleGeometryField.get_attribute, hg,
          MultipleGeometryField.to_representation, ht, hj]

/-- A decoded GeoJSON point used as a concrete collaborator output. -/
def pointGeo : JsonVal :=
  JsonVal.obj [("type", JsonVal.str "Point"),
               ("coordinates", JsonVal.arr [JsonVal.num 4, JsonVal.num 52])]

/-- Witness for C5: a record without geometry gives the empty-string
sentinel; a record with a truthy, validly decoding geometry gives the decoded
point mapping. -/
theorem C5_geometry_passthrough_witness :
    MultipleGeometryField.represent (fun _ => Except.ok pointGeo) ⟨none, "r"⟩
      = Except.ok (JsonVal.str "")
    ∧ MultipleGeometryField.represent (fun _ => Except.ok pointGeo)
        ⟨some ⟨true, "point-geojson"⟩, "r"⟩ = Except.ok pointGeo :=
  ⟨C5_geometry_passthrough.1 _ _ rfl,
   C5_geometry_passthrough.2 _ ⟨some ⟨true, "point-geojson"⟩, "r"⟩ ⟨true, "point-geojson"⟩
     pointGeo rfl rfl rfl rfl rfl⟩

/-- Claim C6: Rule D returns exactly the record's externally-defined display
string (the model's string conversion) — in particular the string
`"Widget #7"` when that is the display conversion — and the constructed field
is read-only (`read_only = True` is forced in the kwargs passed to the base
constructor, so the field never participates in deserialization). -/
theorem C6_display_field :
    (∀ value : Record, DisplayField.to_representation value = value.str_repr)
    ∧ (∀ value : Record, value.str_repr = "Widget #7" →
        DisplayField.to_representation value = "Widget #7")
    ∧ (∀ kwargs : Dict,
        dictGet (DisplayField.init_kwargs kwargs) "read_only" = some (JsonVal.bool true)) :=
  ⟨fun _ => rfl, fun _ h => h, fun _ => dictGet_dictSetItem_self _ _ _⟩

/-- Witness for C6 at a record whose display conversion yields `"Widget #7"`. -/
theorem C6_display_field_witness :
    DisplayField.to_representation ⟨none, "Widget #7"⟩ = "Widget #7" :=
  C6_display_field.2.1 ⟨none, "Widget #7"⟩ rfl

/-- Claim C7: each rule propagates its external collaborator's failure
unchanged — `get_links` and `RelatedSummaryField` propagate a failing
`reverse`, `LinksField` propagates a failing `get_url`, and
`MultipleGeometryField` propagates a failing `json.loads`; none catches,
retries, or converts the error into a partial or defaulted result. -/
theorem C7_error_propagation :
    (∀ (reverse : String → Option Dict → Option HttpRequest → Except Err String)
       (view_name : String) (kwargs : Option Dict) (request : Option HttpRequest) (e : Err),
        reverse view_name kwargs request = Except.error e →
        get_links reverse view_name kwargs request = Except.error e)
    ∧ (∀ (reverse : String → HttpRequest → Except Err String) (request : HttpRequest)
         (value : RelatedHandle) (e : Err),
        reverse (value.model_name.toLower ++ "-list") request = Except.error e →
        RelatedSummaryField.to_representation reverse request value = Except.error e)
    ∧ (∀ (get_url : Record → String → Option HttpRequest → Option String → Except Err String)
         (f : LinksField) (value : Record) (e : Err),
        get_url value f.view_name f.context_request none = Except.error e →
        LinksField.to_representation get_url f value = Except.error e)
    ∧ (∀ (json_loads : String → Except Err JsonVal) (g : Geometry) (e : Err),
        g.truthy = true → json_loads g.geojson = Except.error e →
        MultipleGeometryField.to_representation json_loads (some g) = Except.error e) := by
  refine ⟨?_, ?_, ?_, ?_⟩
  · intro reverse vn kw rq e h
    simp [get_links, h]
  · intro reverse rq v e h
    simp [RelatedSummaryField.to_representation, h, except_error_bind]
  · intro gu f v e h
    simp [LinksField.to_representation, h]
  · intro jl g e ht h
    simp [MultipleGeometryField.to_representation, ht, h]

/-- Witness for C7 with concretely failing collaborators. -/
theorem C7_error_propagation_witness :
    get_links (fun _ _ _ => Except.error (Err.resolutionError "no-route")) "v" none none
      = Except.error (Err.resolutionError "no-route")
    ∧ RelatedSummaryField.to_representation
        (fun _ _ => Except.error (Err.resolutionError "no-route")) ⟨"req"⟩
        ⟨1, "Thing", PKey.int 7, ["parent_id"]⟩
      = Except.error (Err.resolutionError "no-route")
    ∧ LinksField.to_representation
        (fun _ _ _ _ => Except.error (Err.resolutionError "no-route")) ⟨"v", none⟩ ⟨none, "r"⟩
      = Except.error (Err.resolutionError "no-route")
    ∧ MultipleGeometryField.to_representation
        (fun _ => Except.error (Err.decodeError "bad-json")) (some ⟨true, "xx"⟩)
      = Except.error (Err.decodeError "bad-json") :=
  ⟨C7_error_propagation.1 _ "v" none none _ rfl,
   C7_error_propagation.2.1 _ ⟨"req"⟩ ⟨1, "Thing", PKey.int 7, ["parent_id"]⟩ _ rfl,
   C7_error_propagation.2.2.1 _ ⟨"v", none⟩ ⟨none, "r"⟩ _ rfl,
   C7_error_propagation.2.2.2 _ ⟨true, "xx"⟩ _ rfl rfl⟩

/-- Claim C8: in the state-transformer reading, each rule's output is a pure
function of the record (and its configuration/collaborators), and the record
state it returns is exactly the record it received — no rule writes a record
attribute or retains state across invocations. -/
theorem C8_rules_pure :
    (∀ (superRepr : Record → Dict) (dataset : String) (s : Record),
        DataSetSerializerMixin.to_representation_st superRepr dataset s
          = (DataSetSerializerMixin.to_representation (superRepr s) dataset, s))
    ∧ (∀ s : Record,
        DisplayField.to_representation_st s = (DisplayField.to_representation s, s))
    ∧ (∀ (json_loads : String → Except Err JsonVal) (s : Record),
        MultipleGeometryField.represent_st json_loads s
          = (MultipleGeometryField.represent json_loads s, s)) :=
  ⟨fun _ _ _ => rfl, fun _ => rfl, fun _ _ => rfl⟩

/-- Claim C9: Rule E's presence test is Python truthiness, not a null check:
every falsy attribute value (absent, or a present-but-falsy geometry) yields
the empty string, and the decoding branch runs exactly when the value is
truthy. -/
theorem C9_truthiness_not_null_check :
    (∀ (json_loads : String → Except Err JsonVal) (v : Option Geometry),
        pyTruthy v = false →
        MultipleGeometryField.to_representation json_loads v = Except.ok (JsonVal.str ""))
    ∧ (∀ (json_loads : String → Except Err JsonVal) (g : Geometry),
        g.truthy = true →
        MultipleGeometryField.to_representation json_loads (some g) = json_loads g.geojson) := by
  constructor
  · intro jl v h
    cases v with
    | none => rfl
    | some g =>
      simp only [pyTruthy] at h
      simp [MultipleGeometryField.to_representation, h]
  · intro jl g h
    simp [MultipleGeometryField.to_representation, h]

/-- Witness for C9: a non-null but falsy geometry yields the empty string; a
truthy one is decoded. -/
theorem C9_truthiness_not_null_check_witness :
    MultipleGeometryField.to_representation (fun _ => Except.ok JsonVal.null)
        (some ⟨false, "empty-geom"⟩)
      = Except.ok (JsonVal.str "")
    ∧ MultipleGeometryField.to_representation (fun _ => Except.ok JsonVal.null)
        (some ⟨true, "pt"⟩)
      = Except.ok JsonVal.null :=
  ⟨C9_truthiness_not_null_check.1 _ (some ⟨false, "empty-geom"⟩) rfl,
   Eq.trans (C9_truthiness_not_null_check.2 _ ⟨true, "pt"⟩ rfl) rfl⟩

/-- Claim C10: `DisplayField.__init__` unconditionally forces
`source = '*'` and `read_only = True` in the kwargs handed to the base
constructor, overwriting any caller-supplied values for those keys. -/
theorem C10_init_forces_source_and_read_only (kwargs : Dict) :
    dictGet (DisplayField.init_kwargs kwargs) "source" = some (JsonVal.str "*")
    ∧ dictGet (DisplayField.init_kwargs kwargs) "read_only" = some (JsonVal.bool true) := by
  constructor
  · rw [DisplayField.init_kwargs,
        dictGet_dictSetItem_ne (dictSetItem kwargs "source" (JsonVal.str "*"))
          "source" "read_only" (JsonVal.bool true) (by decide)]
    exact dictGet_dictSetItem_self _ _ _
  · exact dictGet_dictSetItem_self _ _ _

/-- Witness for C8 at a concrete record. -/
theorem C8_rules_pure_witness :
    DisplayField.to_representation_st ⟨none, "Widget #7"⟩
      = ("Widget #7", (⟨none, "Widget #7"⟩ : Record)) :=
  C8_rules_pure.2.1 ⟨none, "Widget #7"⟩

/-- Witness for C10: caller-supplied `source` and `read_only` values are
overwritten. -/
theorem C10_init_forces_source_and_read_only_witness :
    dictGet (DisplayField.init_kwargs
        [("source", JsonVal.str "other"), ("read_only", JsonVal.bool false)]) "source"
      = some (JsonVal.str "*")
    ∧ dictGet (DisplayField.init_kwargs
        [("source", JsonVal.str "other"), ("read_only", JsonVal.bool false)]) "read_only"
      = some (JsonVal.bool true) :=
  C10_init_forces_source_and_read_only
    [("source", JsonVal.str "other"), ("read_only", JsonVal.bool false)]
